import Mathlib

/-!
Shallow embedding of the posture-analysis core of
`src/src/hooks/usePoseDetection.ts` (the `usePoseDetection` hook).

Numbers are modelled as rationals, timestamps (`Date.now()` values, in
milliseconds) as integers.  The mutable refs of the hook (baseline,
the five smoothing buffers, the bad-posture start timestamp and the
last-notification timestamp) are gathered into an explicit
`SessionState` record that every step threads through.  Landmark access
on a too-short frame throws a `TypeError` in the source before any
buffer is mutated; that is modelled by `analyzePosture` returning
`none` (the caller `detectPose` catches the exception and leaves both
the state and the reported status unchanged, as the source's
`try/catch` does).
-/

namespace PostureGuard

/-- `PostureStatus` from the source (`'good' | 'sit-straight' | 'move-back'
| 'initializing' | 'no-person'`). -/
inductive PostureStatus where
  | good
  | sitStraight
  | moveBack
  | initializing
  | noPerson
  deriving DecidableEq, Repr

/-- One MediaPipe landmark: normalized `x`, `y` and a `visibility`
confidence. -/
structure Landmark where
  x : ℚ
  y : ℚ
  visibility : ℚ
  deriving DecidableEq, Repr

/-- The record stored in `baselineRef` (lines 54-60 of the source). -/
structure Baseline where
  shoulderSlope : ℚ
  neckAngle : ℚ
  faceSize : ℚ
  headYaw : ℚ
  spinalRatio : ℚ
  deriving DecidableEq, Repr

/-- The `PostureAnalysis` record returned by `analyzePosture`. -/
structure PostureAnalysis where
  status : PostureStatus
  shoulderSlope : ℚ
  neckAngle : ℚ
  confidence : ℚ
  deriving DecidableEq, Repr

/-- The browser-environment facts `sendNotification` consults:
`'Notification' in window`, `Notification.permission === 'granted'` and
`document.visibilityState === 'hidden'`. -/
structure NotificationEnv where
  hasNotificationApi : Bool
  permissionGranted : Bool
  pageHidden : Bool
  deriving DecidableEq, Repr

/-- All mutable refs of one analysis session. -/
structure SessionState where
  baseline : Option Baseline
  shoulderSlopeBuffer : List ℚ
  neckAngleBuffer : List ℚ
  faceSizeBuffer : List ℚ
  headYawBuffer : List ℚ
  spinalRatioBuffer : List ℚ
  badPostureStart : Option ℤ
  lastNotificationTime : ℤ
  deriving DecidableEq, Repr

/-- `SMOOTHING_BUFFER_SIZE = 5` (line 32). -/
def SMOOTHING_BUFFER_SIZE : ℕ := 5

/-- `BAD_POSTURE_THRESHOLD_MS = 2000` (line 33). -/
def BAD_POSTURE_THRESHOLD_MS : ℤ := 2000

/-- `NOTIFICATION_COOLDOWN_MS = 5000` (line 34). -/
def NOTIFICATION_COOLDOWN_MS : ℤ := 5000

/-- `resetBaseline` (lines 74-83): clears the baseline, the five
smoothing buffers, the bad-posture start and the last-notification
time. -/
def resetBaseline (_s : SessionState) : SessionState :=
  { baseline := none
    shoulderSlopeBuffer := []
    neckAngleBuffer := []
    faceSizeBuffer := []
    headYawBuffer := []
    spinalRatioBuffer := []
    badPostureStart := none
    lastNotificationTime := 0 }

/-- `getSmoothedValue` (lines 85-92): pushes `newValue`, drops the
oldest entry when the buffer exceeds `SMOOTHING_BUFFER_SIZE`, and
returns the updated buffer together with the arithmetic mean of its
contents (`reduce((a, b) => a + b, 0) / length`). -/
def getSmoothedValue (buffer : List ℚ) (newValue : ℚ) : List ℚ × ℚ :=
  let pushed := buffer ++ [newValue]
  let kept := if SMOOTHING_BUFFER_SIZE < pushed.length then pushed.tail else pushed
  (kept, kept.foldl (fun a b => a + b) 0 / (kept.length : ℚ))

/-- `sendNotification` (lines 94-108): fires only when the Notification
API exists, permission is granted, the page is hidden and
`Date.now() - lastNotificationTime > NOTIFICATION_COOLDOWN_MS`; on
firing it sets the last-notification time to `now`.  Returns whether it
fired and the updated last-notification time. -/
def sendNotification (env : NotificationEnv) (lastNotificationTime : ℤ) (now : ℤ) :
    Bool × ℤ :=
  if env.hasNotificationApi ∧ env.permissionGranted ∧ env.pageHidden ∧
      NOTIFICATION_COOLDOWN_MS < now - lastNotificationTime then
    (true, now)
  else
    (false, lastNotificationTime)

/-- `sensitivityMultiplier = 1 + (sensitivity - 50) / 100` (line 161). -/
def sensitivityMultiplier (sensitivity : ℚ) : ℚ :=
  1 + (sensitivity - 50) / 100

/-- `shoulderThreshold = 0.04 / sensitivityMultiplier` (line 166). -/
def shoulderThreshold (sensitivity : ℚ) : ℚ :=
  0.04 / sensitivityMultiplier sensitivity

/-- `neckThreshold = 0.06 / sensitivityMultiplier` (line 167). -/
def neckThreshold (sensitivity : ℚ) : ℚ :=
  0.06 / sensitivityMultiplier sensitivity

/-- `headYawThreshold = 0.03 / sensitivityMultiplier` (line 168). -/
def headYawThreshold (sensitivity : ℚ) : ℚ :=
  0.03 / sensitivityMultiplier sensitivity

/-- `spinalRatioThreshold = 0.18 / (sensitivityMultiplier * 1.2)` (line 170). -/
def spinalRatioThreshold (sensitivity : ℚ) : ℚ :=
  0.18 / (sensitivityMultiplier sensitivity * 1.2)

/-- `distanceThreshold = baseline.faceSize * 1.4 / sensitivityMultiplier`
(line 171). -/
def distanceThreshold (sensitivity : ℚ) (baselineFaceSize : ℚ) : ℚ :=
  baselineFaceSize * 1.4 / sensitivityMultiplier sensitivity

/-- The fallback baseline literal of line 164:
`{ shoulderSlope: 0.03, neckAngle: 0.05, faceSize: 0.15, headYaw: 0.02,
spinalRatio: 1.5 }`. -/
def fallbackBaseline : Baseline :=
  { shoulderSlope := 0.03
    neckAngle := 0.05
    faceSize := 0.15
    headYaw := 0.02
    spinalRatio := 1.5 }

/-- The raw-status decision chain of lines 175-188: five checks in
fixed order, first match wins, otherwise `good`. -/
def classifyRaw (sensitivity : ℚ) (baseline : Baseline)
    (shoulderSlope neckAngle headYaw faceSize spinalRatio : ℚ) : PostureStatus :=
  if distanceThreshold sensitivity baseline.faceSize < faceSize then
    PostureStatus.moveBack
  else if baseline.shoulderSlope + shoulderThreshold sensitivity < shoulderSlope then
    PostureStatus.sitStraight
  else if baseline.neckAngle + neckThreshold sensitivity < neckAngle then
    PostureStatus.sitStraight
  else if baseline.headYaw + headYawThreshold sensitivity < headYaw then
    PostureStatus.sitStraight
  else if spinalRatio < baseline.spinalRatio - spinalRatioThreshold sensitivity then
    PostureStatus.sitStraight
  else
    PostureStatus.good

/-- The time-threshold block of lines 190-206: on a non-`good` raw
status, record `now` as the bad-posture start if none is recorded;
report `good` while the bad duration is below
`BAD_POSTURE_THRESHOLD_MS`, otherwise report the raw status and invoke
`sendNotification`.  A raw `good` clears the recorded start.  Returns
(reported status, new bad-posture start, new last-notification time). -/
def hysteresisGate (rawStatus : PostureStatus) (now : ℤ) (env : NotificationEnv)
    (badPostureStart : Option ℤ) (lastNotificationTime : ℤ) :
    PostureStatus × Option ℤ × ℤ :=
  if rawStatus ≠ PostureStatus.good then
    let start := badPostureStart.getD now
    let badDuration := now - start
    if badDuration < BAD_POSTURE_THRESHOLD_MS then
      (PostureStatus.good, some start, lastNotificationTime)
    else
      (rawStatus, some start, (sendNotification env lastNotificationTime now).2)
  else
    (rawStatus, none, lastNotificationTime)

/-- The raw feature values computed from one landmark frame
(lines 113-147), before smoothing.  The absolute values applied at the
smoothing call sites for the neck angle and the head yaw are already
taken here. -/
structure RawFeatures where
  shoulderSlope : ℚ
  neckAngle : ℚ
  headYaw : ℚ
  faceSize : ℚ
  spinalRatio : ℚ
  confidence : ℚ
  deriving DecidableEq, Repr

/-- Landmark access and raw-feature arithmetic of lines 113-147.  The
source dereferences `landmarks[11]`, `landmarks[12]`, `landmarks[7]`,
`landmarks[8]` and `landmarks[0]`; a frame with fewer than 13 entries
makes the first dereference throw, before any buffer is touched, so
extraction is `none` exactly in that case. -/
def extractRaw (landmarks : List Landmark) : Option RawFeatures := do
  let leftShoulder ← landmarks[11]?
  let rightShoulder ← landmarks[12]?
  let leftEar ← landmarks[7]?
  let rightEar ← landmarks[8]?
  let nose ← landmarks[0]?
  let rawShoulderSlope := |leftShoulder.y - rightShoulder.y|
  let shoulderMidX := (leftShoulder.x + rightShoulder.x) / 2
  let rawNeckAngle := nose.x - shoulderMidX
  let earMidX := (leftEar.x + rightEar.x) / 2
  let rawHeadYaw := nose.x - earMidX
  let rawFaceSize := |leftEar.x - rightEar.x|
  let shoulderMidY := (leftShoulder.y + rightShoulder.y) / 2
  let rawSpinalDistance := |shoulderMidY - nose.y|
  let rawSpinalRatio := rawSpinalDistance / rawFaceSize
  let confidence :=
    (leftShoulder.visibility + rightShoulder.visibility + nose.visibility) / 3
  pure { shoulderSlope := rawShoulderSlope
         neckAngle := |rawNeckAngle|
         headYaw := |rawHeadYaw|
         faceSize := rawFaceSize
         spinalRatio := rawSpinalRatio
         confidence := confidence }

/-- `analyzePosture` (lines 110-216): extract raw features, smooth each
through its buffer, capture the baseline when none exists and the
shoulder-slope buffer has reached `SMOOTHING_BUFFER_SIZE`, classify
against the captured or fallback baseline, and gate the result through
the bad-posture time threshold.  `none` models the `TypeError` a
too-short frame throws before any state is mutated. -/
def analyzePosture (sensitivity : ℚ) (landmarks : List Landmark) (now : ℤ)
    (env : NotificationEnv) (s : SessionState) :
    Option (SessionState × PostureAnalysis) :=
  match extractRaw landmarks with
  | none => none
  | some r =>
    let p1 := getSmoothedValue s.shoulderSlopeBuffer r.shoulderSlope
    let p2 := getSmoothedValue s.neckAngleBuffer r.neckAngle
    let p3 := getSmoothedValue s.headYawBuffer r.headYaw
    let p4 := getSmoothedValue s.faceSizeBuffer r.faceSize
    let p5 := getSmoothedValue s.spinalRatioBuffer r.spinalRatio
    let baselineSet : Option Baseline :=
      if s.baseline.isNone ∧ SMOOTHING_BUFFER_SIZE ≤ p1.1.length then
        some { shoulderSlope := p1.2
               neckAngle := p2.2
               faceSize := p4.2
               headYaw := p3.2
               spinalRatio := p5.2 }
      else
        s.baseline
    let baseline := baselineSet.getD fallbackBaseline
    let rawStatus := classifyRaw sensitivity baseline p1.2 p2.2 p3.2 p4.2 p5.2
    let gated := hysteresisGate rawStatus now env s.badPostureStart s.lastNotificationTime
    some
      ({ baseline := baselineSet
         shoulderSlopeBuffer := p1.1
         neckAngleBuffer := p2.1
         faceSizeBuffer := p4.1
         headYawBuffer := p3.1
         spinalRatioBuffer := p5.1
         badPostureStart := gated.2.1
         lastNotificationTime := gated.2.2 },
       { status := gated.1
         shoulderSlope := p1.2 * 100
         neckAngle := p2.2 * 100
         confidence := r.confidence })

/-- One iteration of `detectPose` (lines 218-292) as seen by the
analysis state: `frame = none` models "no landmarks detected" (reported
status `no-person`, state untouched); a present frame is analyzed, and
a thrown `TypeError` (modelled by `analyzePosture = none`) is caught by
the surrounding `try/catch`, leaving the state and the reported status
unchanged. -/
def detectPose (sensitivity : ℚ) (frame : Option (List Landmark)) (now : ℤ)
    (env : NotificationEnv) (s : SessionState) (prevStatus : PostureStatus) :
    SessionState × PostureStatus :=
  match frame with
  | none => (s, PostureStatus.noPerson)
  | some landmarks =>
    match analyzePosture sensitivity landmarks now env s with
    | none => (s, prevStatus)
    | some (s2, a) => (s2, a.status)

/-- Iterated `detectPose` over a list of (frame, timestamp) pairs. -/
def runFrames (sensitivity : ℚ) (env : NotificationEnv) :
    List (Option (List Landmark) × ℤ) → SessionState × PostureStatus →
    SessionState × PostureStatus
  | [], sp => sp
  | (frame, now) :: rest, (s, st) =>
    runFrames sensitivity env rest (detectPose sensitivity frame now env s st)

/-- Folding `getSmoothedValue` pushes over a buffer. -/
def pushAll (buffer : List ℚ) (vs : List ℚ) : List ℚ :=
  vs.foldl (fun b v => (getSmoothedValue b v).1) buffer

/-- An environment in which every notification precondition fails; used
when running the hysteresis gate on raw-status traces, where only the
reported status and the recorded start matter. -/
def quietEnv : NotificationEnv :=
  { hasNotificationApi := false, permissionGranted := false, pageHidden := false }

/-- The recorded bad-posture start after feeding a list of
(raw status, timestamp) frames through the hysteresis gate. -/
def gateStateAfter : List (PostureStatus × ℤ) → Option ℤ → Option ℤ
  | [], start => start
  | (raw, now) :: rest, start =>
    gateStateAfter rest (hysteresisGate raw now quietEnv start 0).2.1

/-- The reported statuses of a list of (raw status, timestamp) frames
fed through the hysteresis gate. -/
def runGate : List (PostureStatus × ℤ) → Option ℤ → List PostureStatus
  | [], _ => []
  | (raw, now) :: rest, start =>
    (hysteresisGate raw now quietEnv start 0).1 ::
      runGate rest (hysteresisGate raw now quietEnv start 0).2.1

/-! ## Shared helper lemmas -/

theorem hysteresisGate_good (now : ℤ) (env : NotificationEnv) (start : Option ℤ) (last : ℤ) :
    hysteresisGate PostureStatus.good now env start last = (PostureStatus.good, none, last) := by
  simp [hysteresisGate]

theorem hysteresisGate_bad {raw : PostureStatus} (h : raw ≠ PostureStatus.good)
    (now : ℤ) (env : NotificationEnv) (start : Option ℤ) (last : ℤ) :
    hysteresisGate raw now env start last =
      (if now - start.getD now < BAD_POSTURE_THRESHOLD_MS then
        (PostureStatus.good, some (start.getD now), last)
      else
        (raw, some (start.getD now), (sendNotification env last now).2)) := by
  simp [hysteresisGate, h]

theorem sensitivityMultiplier_pos {s : ℚ} (h0 : 0 ≤ s) (h100 : s ≤ 100) :
    0 < sensitivityMultiplier s := by
  unfold sensitivityMultiplier
  linarith

theorem sensitivityMultiplier_lt_iff {s : ℚ} :
    (1.4 : ℚ) < sensitivityMultiplier s ↔ 90 < s := by
  unfold sensitivityMultiplier
  constructor <;> intro h <;> [linarith; norm_num] <;> linarith

theorem shoulderThreshold_pos {s : ℚ} (h0 : 0 ≤ s) (h100 : s ≤ 100) :
    0 < shoulderThreshold s := by
  unfold shoulderThreshold
  exact div_pos (by norm_num) (sensitivityMultiplier_pos h0 h100)

theorem neckThreshold_pos {s : ℚ} (h0 : 0 ≤ s) (h100 : s ≤ 100) :
    0 < neckThreshold s := by
  unfold neckThreshold
  exact div_pos (by norm_num) (sensitivityMultiplier_pos h0 h100)

theorem headYawThreshold_pos {s : ℚ} (h0 : 0 ≤ s) (h100 : s ≤ 100) :
    0 < headYawThreshold s := by
  unfold headYawThreshold
  exact div_pos (by norm_num) (sensitivityMultiplier_pos h0 h100)

theorem spinalRatioThreshold_pos {s : ℚ} (h0 : 0 ≤ s) (h100 : s ≤ 100) :
    0 < spinalRatioThreshold s := by
  unfold spinalRatioThreshold
  exact div_pos (by norm_num) (by nlinarith [sensitivityMultiplier_pos h0 h100])

theorem distanceThreshold_pos {s bf : ℚ} (h0 : 0 ≤ s) (h100 : s ≤ 100) (hbf : 0 < bf) :
    0 < distanceThreshold s bf := by
  unfold distanceThreshold
  exact div_pos (by nlinarith) (sensitivityMultiplier_pos h0 h100)

theorem getSmoothedValue_fst_length (b : List ℚ) (v : ℚ) :
    (getSmoothedValue b v).1.length =
      if SMOOTHING_BUFFER_SIZE < b.length + 1 then b.length else b.length + 1 := by
  simp only [getSmoothedValue, List.length_append, List.length_singleton]
  split <;> simp

/-! ## Claims -/

/-- C7: for every sensitivity `s` in `[0,100]`, the sensitivity multiplier
equals `1 + (s - 50)/100`, each derived threshold keeps its source formula,
and all five thresholds are strictly positive (given a positive baseline
face size for the distance threshold), with every divisor nonzero on this
domain. -/
theorem C7_thresholds_positive (s bf : ℚ) (h0 : 0 ≤ s) (h100 : s ≤ 100) (hbf : 0 < bf) :
    sensitivityMultiplier s = 1 + (s - 50) / 100 ∧
    shoulderThreshold s = 0.04 / sensitivityMultiplier s ∧
    neckThreshold s = 0.06 / sensitivityMultiplier s ∧
    headYawThreshold s = 0.03 / sensitivityMultiplier s ∧
    spinalRatioThreshold s = 0.18 / (sensitivityMultiplier s * 1.2) ∧
    distanceThreshold s bf = bf * 1.4 / sensitivityMultiplier s ∧
    0 < shoulderThreshold s ∧
    0 < neckThreshold s ∧
    0 < headYawThreshold s ∧
    0 < spinalRatioThreshold s ∧
    0 < distanceThreshold s bf ∧
    sensitivityMultiplier s ≠ 0 ∧
    sensitivityMultiplier s * 1.2 ≠ 0 :=
  ⟨rfl, rfl, rfl, rfl, rfl, rfl,
    shoulderThreshold_pos h0 h100,
    neckThreshold_pos h0 h100,
    headYawThreshold_pos h0 h100,
    spinalRatioThreshold_pos h0 h100,
    distanceThreshold_pos h0 h100 hbf,
    ne_of_gt (sensitivityMultiplier_pos h0 h100),
    by nlinarith [sensitivityMultiplier_pos h0 h100]⟩

/-- Witness for C7 at sensitivity 50 and baseline face size 0.15. -/
theorem C7_thresholds_positive_witness :
    0 < shoulderThreshold 50 ∧ 0 < distanceThreshold 50 0.15 :=
  ⟨(C7_thresholds_positive 50 0.15 (by norm_num) (by norm_num) (by norm_num)).2.2.2.2.2.2.1,
    (C7_thresholds_positive 50 0.15 (by norm_num) (by norm_num) (by norm_num)).2.2.2.2.2.2.2.2.2.2.1⟩

/-- C1: the raw-status classifier evaluates its five checks in fixed
priority order, the first matching check deciding the result with no later
check consulted, and with baseline equal to the documented fallback values,
sensitivity 50 and a smoothed face size of 0.25 the raw status is
`move-back` whatever the other smoothed features are. -/
theorem C1_classifier_priority_order (s : ℚ) (b : Baseline) (sh n hy f sp : ℚ) :
    (distanceThreshold s b.faceSize < f →
      classifyRaw s b sh n hy f sp = PostureStatus.moveBack) ∧
    (¬ distanceThreshold s b.faceSize < f →
      b.shoulderSlope + shoulderThreshold s < sh →
      classifyRaw s b sh n hy f sp = PostureStatus.sitStraight) ∧
    (¬ distanceThreshold s b.faceSize < f →
      ¬ b.shoulderSlope + shoulderThreshold s < sh →
      b.neckAngle + neckThreshold s < n →
      classifyRaw s b sh n hy f sp = PostureStatus.sitStraight) ∧
    (¬ distanceThreshold s b.faceSize < f →
      ¬ b.shoulderSlope + shoulderThreshold s < sh →
      ¬ b.neckAngle + neckThreshold s < n →
      b.headYaw + headYawThreshold s < hy →
      classifyRaw s b sh n hy f sp = PostureStatus.sitStraight) ∧
    (¬ distanceThreshold s b.faceSize < f →
      ¬ b.shoulderSlope + shoulderThreshold s < sh →
      ¬ b.neckAngle + neckThreshold s < n →
      ¬ b.headYaw + headYawThreshold s < hy →
      sp < b.spinalRatio - spinalRatioThreshold s →
      classifyRaw s b sh n hy f sp = PostureStatus.sitStraight) ∧
    (¬ distanceThreshold s b.faceSize < f →
      ¬ b.shoulderSlope + shoulderThreshold s < sh →
      ¬ b.neckAngle + neckThreshold s < n →
      ¬ b.headYaw + headYawThreshold s < hy →
      ¬ sp < b.spinalRatio - spinalRatioThreshold s →
      classifyRaw s b sh n hy f sp = PostureStatus.good) ∧
    (∀ sh2 n2 hy2 sp2 : ℚ,
      classifyRaw 50 fallbackBaseline sh2 n2 hy2 0.25 sp2 = PostureStatus.moveBack) := by
  refine ⟨fun h1 => by simp [classifyRaw, h1],
    fun h1 h2 => by simp [classifyRaw, h1, h2],
    fun h1 h2 h3 => by simp [classifyRaw, h1, h2, h3],
    fun h1 h2 h3 h4 => by simp [classifyRaw, h1, h2, h3, h4],
    fun h1 h2 h3 h4 h5 => by simp [classifyRaw, h1, h2, h3, h4, h5],
    fun h1 h2 h3 h4 h5 => by simp [classifyRaw, h1, h2, h3, h4, h5],
    fun sh2 n2 hy2 sp2 => ?_⟩
  have : distanceThreshold 50 fallbackBaseline.faceSize < 0.25 := by
    norm_num [distanceThreshold, sensitivityMultiplier, fallbackBaseline]
  simp [classifyRaw, this]

/-- Witness for C1: the scenario of the claim, with arbitrary values for
the posture features a later check would look at. -/
theorem C1_classifier_priority_order_witness :
    classifyRaw 50 fallbackBaseline 9 9 9 0.25 0 = PostureStatus.moveBack :=
  (C1_classifier_priority_order 50 fallbackBaseline 9 9 9 0.25 0).2.2.2.2.2.2 9 9 9 0

/-- C8: with no captured baseline the classifier uses exactly the fallback
constants `shoulderSlope = 0.03`, `neckAngle = 0.05`, `faceSize = 0.15`,
`headYaw = 0.02`, `spinalRatio = 1.5`: the analysis of a frame in a state
with no baseline and fewer than 4 buffered shoulder samples (so no capture
happens either) classifies against `fallbackBaseline`; and at sensitivity
50 with smoothed face size 0.10 and every other smoothed feature within
its fallback bound, the raw status is `good`. -/
theorem C8_fallback_baseline_used :
    fallbackBaseline.shoulderSlope = 0.03 ∧
    fallbackBaseline.neckAngle = 0.05 ∧
    fallbackBaseline.faceSize = 0.15 ∧
    fallbackBaseline.headYaw = 0.02 ∧
    fallbackBaseline.spinalRatio = 1.5 ∧
    (∀ (sens : ℚ) (l : List Landmark) (now : ℤ) (env : NotificationEnv)
        (s : SessionState) (r : RawFeatures),
      extractRaw l = some r → s.baseline = none → s.shoulderSlopeBuffer.length < 4 →
      (analyzePosture sens l now env s).map (fun p => (p.1.baseline, p.2.status)) =
        some (none,
          (hysteresisGate
            (classifyRaw sens fallbackBaseline
              (getSmoothedValue s.shoulderSlopeBuffer r.shoulderSlope).2
              (getSmoothedValue s.neckAngleBuffer r.neckAngle).2
              (getSmoothedValue s.headYawBuffer r.headYaw).2
              (getSmoothedValue s.faceSizeBuffer r.faceSize).2
              (getSmoothedValue s.spinalRatioBuffer r.spinalRatio).2)
            now env s.badPostureStart s.lastNotificationTime).1)) ∧
    (∀ sh n hy sp : ℚ,
      sh ≤ 0.03 + shoulderThreshold 50 → n ≤ 0.05 + neckThreshold 50 →
      hy ≤ 0.02 + headYawThreshold 50 → 1.5 - spinalRatioThreshold 50 ≤ sp →
      classifyRaw 50 fallbackBaseline sh n hy 0.10 sp = PostureStatus.good) := by
  refine ⟨rfl, rfl, rfl, rfl, rfl, ?_, ?_⟩
  · intro sens l now env s r hr hbase hlen
    have hlen5 : ¬ (SMOOTHING_BUFFER_SIZE ≤
        (getSmoothedValue s.shoulderSlopeBuffer r.shoulderSlope).1.length) := by
      rw [getSmoothedValue_fst_length]
      simp only [SMOOTHING_BUFFER_SIZE]
      split <;> omega
    simp [analyzePosture, hr, hbase, hlen5]
  · intro sh n hy sp hsh hn hhy hsp
    have hd : ¬ distanceThreshold 50 fallbackBaseline.faceSize < (0.10 : ℚ) := by
      norm_num [distanceThreshold, sensitivityMultiplier, fallbackBaseline]
    have h2 : ¬ fallbackBaseline.shoulderSlope + shoulderThreshold 50 < sh := by
      simp only [fallbackBaseline]; linarith
    have h3 : ¬ fallbackBaseline.neckAngle + neckThreshold 50 < n := by
      simp only [fallbackBaseline]; linarith
    have h4 : ¬ fallbackBaseline.headYaw + headYawThreshold 50 < hy := by
      simp only [fallbackBaseline]; linarith
    have h5 : ¬ sp < fallbackBaseline.spinalRatio - spinalRatioThreshold 50 := by
      simp only [fallbackBaseline]; linarith
    simp [classifyRaw, hd, h2, h3, h4, h5]

/-- Witness for C8: the scenario of the claim at concrete feature values
(all features at their fallback baseline value, face size 0.10), on a
concrete 13-landmark frame in the empty session state. -/
theorem C8_fallback_baseline_used_witness :
    classifyRaw 50 fallbackBaseline 0.03 0.05 0.02 0.10 1.5 = PostureStatus.good :=
  (C8_fallback_baseline_used).2.2.2.2.2.2 0.03 0.05 0.02 1.5
    (by have := shoulderThreshold_pos (s := 50) (by norm_num) (by norm_num); linarith)
    (by have := neckThreshold_pos (s := 50) (by norm_num) (by norm_num); linarith)
    (by have := headYawThreshold_pos (s := 50) (by norm_num) (by norm_num); linarith)
    (by have := spinalRatioThreshold_pos (s := 50) (by norm_num) (by norm_num); linarith)

theorem getSmoothedValue_snd (b : List ℚ) (v : ℚ) :
    (getSmoothedValue b v).2 =
      (getSmoothedValue b v).1.sum / ((getSmoothedValue b v).1.length : ℚ) := by
  simp [getSmoothedValue, List.sum_eq_foldl]

theorem pushAll_eq_drop :
    ∀ (vs b : List ℚ), b.length ≤ SMOOTHING_BUFFER_SIZE →
      pushAll b vs = (b ++ vs).drop (b.length + vs.length - SMOOTHING_BUFFER_SIZE) := by
  intro vs
  induction vs with
  | nil =>
    intro b hb
    simp only [pushAll, List.foldl_nil, List.append_nil, List.length_nil, Nat.add_zero,
      Nat.sub_eq_zero_of_le hb, List.drop_zero]
  | cons v vs ih =>
    intro b hb
    simp only [SMOOTHING_BUFFER_SIZE] at hb ⊢
    rw [show pushAll b (v :: vs) = pushAll (getSmoothedValue b v).1 vs from rfl]
    by_cases hlt : b.length < 5
    · have hfst : (getSmoothedValue b v).1 = b ++ [v] := by
        simp only [getSmoothedValue, List.length_append, List.length_singleton,
          SMOOTHING_BUFFER_SIZE]
        rw [if_neg (by omega)]
      rw [hfst, ih (b ++ [v]) (by simp only [SMOOTHING_BUFFER_SIZE]; simp; omega)]
      simp only [SMOOTHING_BUFFER_SIZE, List.append_assoc, List.singleton_append,
        List.length_append, List.length_singleton, List.length_cons, List.length_nil,
        List.nil_append, Nat.zero_add]
      congr 1
      omega
    · have hlen : b.length = 5 := by omega
      cases b with
      | nil => simp at hlen
      | cons a t =>
        have htlen : t.length = 4 := by simpa using hlen
        have hfst : (getSmoothedValue (a :: t) v).1 = t ++ [v] := by
          simp only [getSmoothedValue, List.length_append, List.length_singleton,
            List.length_cons, SMOOTHING_BUFFER_SIZE]
          rw [if_pos (by omega)]
          simp
        rw [hfst, ih (t ++ [v]) (by simp only [SMOOTHING_BUFFER_SIZE]; simp; omega)]
        simp only [SMOOTHING_BUFFER_SIZE, List.append_assoc, List.singleton_append,
          List.length_append, List.length_singleton, List.length_cons, List.cons_append,
          List.length_nil, List.nil_append, Nat.zero_add]
        rw [htlen]
        rw [show 4 + 1 + vs.length - 5 = vs.length from by omega,
          show 4 + 1 + (vs.length + 1) - 5 = vs.length + 1 from by omega,
          List.drop_succ_cons]

/-- C3: pushing `v1..vk` with `k ≤ 5` into an empty smoothing buffer makes
the output of the k-th push the arithmetic mean of `v1..vk`; a 6th push
evicts the oldest value and outputs the mean of `v2..v6`; the buffer never
grows beyond 5 values and always holds the most recent values (FIFO
eviction). -/
theorem C3_smoothing_buffer_mean_fifo (vs : List ℚ) (v : ℚ) (b : List ℚ) :
    (vs.length + 1 ≤ 5 →
      (getSmoothedValue (pushAll [] vs) v).1 = vs ++ [v] ∧
      (getSmoothedValue (pushAll [] vs) v).2 = (vs ++ [v]).sum / ((vs.length : ℚ) + 1)) ∧
    (vs.length = 5 →
      (getSmoothedValue (pushAll [] vs) v).1 = vs.tail ++ [v] ∧
      (getSmoothedValue (pushAll [] vs) v).2 = (vs.tail ++ [v]).sum / 5) ∧
    (b.length ≤ 5 → (pushAll b vs).length ≤ 5) ∧
    pushAll [] vs = vs.drop (vs.length - 5) := by
  have hdrop : ∀ ws : List ℚ, pushAll [] ws = ws.drop (ws.length - 5) := by
    intro ws
    rw [pushAll_eq_drop ws [] (by simp [SMOOTHING_BUFFER_SIZE])]
    simp [SMOOTHING_BUFFER_SIZE]
  refine ⟨?_, ?_, ?_, hdrop vs⟩
  · intro hk
    have hvs : pushAll [] vs = vs := by
      rw [hdrop vs, Nat.sub_eq_zero_of_le (by omega), List.drop_zero]
    have hfst : (getSmoothedValue vs v).1 = vs ++ [v] := by
      simp only [getSmoothedValue, List.length_append, List.length_singleton,
        SMOOTHING_BUFFER_SIZE]
      rw [if_neg (by omega)]
    constructor
    · rw [hvs, hfst]
    · rw [hvs, getSmoothedValue_snd, hfst]
      simp
  · intro h5
    have hvs : pushAll [] vs = vs := by
      rw [hdrop vs, h5]
      simp
    have hfst : (getSmoothedValue vs v).1 = vs.tail ++ [v] := by
      cases vs with
      | nil => simp at h5
      | cons a t =>
        simp only [getSmoothedValue, List.length_append, List.length_singleton,
          List.length_cons, SMOOTHING_BUFFER_SIZE]
        rw [if_pos (by simp at h5; omega)]
        simp
    have hlen : (vs.tail ++ [v]).length = 5 := by
      cases vs with
      | nil => simp at h5
      | cons a t => simp at h5 ⊢; omega
    constructor
    · rw [hvs, hfst]
    · rw [hvs, getSmoothedValue_snd, hfst, hlen]
      norm_num
  · intro hb
    rw [pushAll_eq_drop vs b (by simpa [SMOOTHING_BUFFER_SIZE] using hb)]
    simp [SMOOTHING_BUFFER_SIZE]
    omega

/-- Witness for C3: pushing 1, 2, 3 and then 4 gives buffer `[1,2,3,4]` and
mean `5/2`; pushing a 6th value 6 after `[1,2,3,4,5]` gives `[2,3,4,5,6]`
and mean 4. -/
theorem C3_smoothing_buffer_mean_fifo_witness :
    (getSmoothedValue (pushAll [] [1, 2, 3]) 4).1 = [1, 2, 3, 4] ∧
    (getSmoothedValue (pushAll [] [1, 2, 3]) 4).2 = 5 / 2 ∧
    (getSmoothedValue (pushAll [] [1, 2, 3, 4, 5]) 6).1 = [2, 3, 4, 5, 6] ∧
    (getSmoothedValue (pushAll [] [1, 2, 3, 4, 5]) 6).2 = 4 := by
  have h1 := (C3_smoothing_buffer_mean_fifo [1, 2, 3] 4 []).1 (by norm_num)
  have h2 := (C3_smoothing_buffer_mean_fifo [1, 2, 3, 4, 5] 6 []).2.1 (by norm_num)
  refine ⟨by simpa using h1.1, ?_, by simpa using h2.1, ?_⟩
  · rw [h1.2]
    norm_num
  · rw [h2.2]
    norm_num

/-- All five smoothing buffers hold the same number of samples. -/
def buffersAligned (s : SessionState) : Prop :=
  s.neckAngleBuffer.length = s.shoulderSlopeBuffer.length ∧
  s.faceSizeBuffer.length = s.shoulderSlopeBuffer.length ∧
  s.headYawBuffer.length = s.shoulderSlopeBuffer.length ∧
  s.spinalRatioBuffer.length = s.shoulderSlopeBuffer.length

/-- C9: after a reset and after every completed analysis pass the five
smoothing buffers have the same length, and under that invariant checking
the shoulder-slope buffer against the capacity is equivalent to checking
every buffer against it. -/
theorem C9_buffer_lengths_agree (sens : ℚ) (frame : Option (List Landmark)) (now : ℤ)
    (env : NotificationEnv) (s : SessionState) (prev : PostureStatus) :
    buffersAligned (resetBaseline s) ∧
    (buffersAligned s → buffersAligned (detectPose sens frame now env s prev).1) ∧
    (buffersAligned s →
      (SMOOTHING_BUFFER_SIZE ≤ s.shoulderSlopeBuffer.length ↔
        SMOOTHING_BUFFER_SIZE ≤ s.shoulderSlopeBuffer.length ∧
        SMOOTHING_BUFFER_SIZE ≤ s.neckAngleBuffer.length ∧
        SMOOTHING_BUFFER_SIZE ≤ s.faceSizeBuffer.length ∧
        SMOOTHING_BUFFER_SIZE ≤ s.headYawBuffer.length ∧
        SMOOTHING_BUFFER_SIZE ≤ s.spinalRatioBuffer.length)) := by
  refine ⟨by simp [buffersAligned, resetBaseline], ?_, ?_⟩
  · intro h
    cases frame with
    | none => simpa [detectPose] using h
    | some l =>
      cases hr : extractRaw l with
      | none => simpa [detectPose, analyzePosture, hr] using h
      | some r =>
        obtain ⟨h1, h2, h3, h4⟩ := h
        simp [detectPose, analyzePosture, hr, buffersAligned,
          getSmoothedValue_fst_length, h1, h2, h3, h4]
  · rintro ⟨h1, h2, h3, h4⟩
    rw [h1, h2, h3, h4]
    tauto

/-- Witness for C9: the empty state after a reset has aligned buffers, and
one pass on a 13-landmark frame keeps them aligned. -/
theorem C9_buffer_lengths_agree_witness :
    buffersAligned (resetBaseline (resetBaseline
      { baseline := none, shoulderSlopeBuffer := [], neckAngleBuffer := [],
        faceSizeBuffer := [], headYawBuffer := [], spinalRatioBuffer := [],
        badPostureStart := none, lastNotificationTime := 0 })) ∧
    buffersAligned (detectPose 50 (some (List.replicate 13 ⟨0, 0, 1⟩)) 0 quietEnv
      (resetBaseline
        { baseline := none, shoulderSlopeBuffer := [], neckAngleBuffer := [],
          faceSizeBuffer := [], headYawBuffer := [], spinalRatioBuffer := [],
          badPostureStart := none, lastNotificationTime := 0 })
      PostureStatus.initializing).1 :=
  ⟨(C9_buffer_lengths_agree 50 (some (List.replicate 13 ⟨0, 0, 1⟩)) 0 quietEnv
      (resetBaseline
        { baseline := none, shoulderSlopeBuffer := [], neckAngleBuffer := [],
          faceSizeBuffer := [], headYawBuffer := [], spinalRatioBuffer := [],
          badPostureStart := none, lastNotificationTime := 0 })
      PostureStatus.initializing).1,
    (C9_buffer_lengths_agree 50 (some (List.replicate 13 ⟨0, 0, 1⟩)) 0 quietEnv
      (resetBaseline
        { baseline := none, shoulderSlopeBuffer := [], neckAngleBuffer := [],
          faceSizeBuffer := [], headYawBuffer := [], spinalRatioBuffer := [],
          badPostureStart := none, lastNotificationTime := 0 })
      PostureStatus.initializing).2.1
      (by simp [buffersAligned, resetBaseline])⟩

theorem detectPose_baseline_stable (sens : ℚ) (frame : Option (List Landmark)) (now : ℤ)
    (env : NotificationEnv) (s : SessionState) (st : PostureStatus) (b : Baseline)
    (hb : s.baseline = some b) :
    (detectPose sens frame now env s st).1.baseline = some b := by
  cases frame with
  | none => simpa [detectPose] using hb
  | some l =>
    cases hr : extractRaw l with
    | none => simpa [detectPose, analyzePosture, hr] using hb
    | some r => simp [detectPose, analyzePosture, hr, hb]

theorem runFrames_baseline_stable (sens : ℚ) (env : NotificationEnv) :
    ∀ (frames : List (Option (List Landmark) × ℤ)) (s : SessionState)
      (st : PostureStatus) (b : Baseline), s.baseline = some b →
      (runFrames sens env frames (s, st)).1.baseline = some b := by
  intro frames
  induction frames with
  | nil => intro s st b hb; simpa [runFrames] using hb
  | cons f rest ih =>
    intro s st b hb
    obtain ⟨frame, now⟩ := f
    rw [show runFrames sens env ((frame, now) :: rest) (s, st) =
      runFrames sens env rest (detectPose sens frame now env s st) from rfl]
    have hd := detectPose_baseline_stable sens frame now env s st b hb
    rcases hdp : detectPose sens frame now env s st with ⟨s2, st2⟩
    rw [hdp] at hd
    exact ih s2 st2 b hd

/-- C4: the baseline is captured on the first analyzed frame on which no
baseline exists and the smoothing buffers have reached capacity (at least
4 samples before the frame, hence 5 after its push), it is never captured
with fewer samples, once present it survives every subsequent frame
unchanged, and `resetBaseline` clears it together with all five smoothing
buffers and the hysteresis state. -/
theorem C4_baseline_captured_once (sens : ℚ) (l : List Landmark) (now : ℤ)
    (env : NotificationEnv) (s : SessionState) (r : RawFeatures)
    (frames : List (Option (List Landmark) × ℤ)) (st : PostureStatus) (b : Baseline) :
    (extractRaw l = some r → s.baseline = none → 4 ≤ s.shoulderSlopeBuffer.length →
      (analyzePosture sens l now env s).map (fun p => p.1.baseline) =
        some (some
          { shoulderSlope := (getSmoothedValue s.shoulderSlopeBuffer r.shoulderSlope).2
            neckAngle := (getSmoothedValue s.neckAngleBuffer r.neckAngle).2
            faceSize := (getSmoothedValue s.faceSizeBuffer r.faceSize).2
            headYaw := (getSmoothedValue s.headYawBuffer r.headYaw).2
            spinalRatio := (getSmoothedValue s.spinalRatioBuffer r.spinalRatio).2 })) ∧
    (extractRaw l = some r → s.baseline = none → s.shoulderSlopeBuffer.length < 4 →
      (analyzePosture sens l now env s).map (fun p => p.1.baseline) = some none) ∧
    (s.baseline = some b →
      (runFrames sens env frames (s, st)).1.baseline = some b) ∧
    resetBaseline s =
      { baseline := none, shoulderSlopeBuffer := [], neckAngleBuffer := [],
        faceSizeBuffer := [], headYawBuffer := [], spinalRatioBuffer := [],
        badPostureStart := none, lastNotificationTime := 0 } := by
  refine ⟨?_, ?_, fun hb => runFrames_baseline_stable sens env frames s st b hb, rfl⟩
  · intro hr hbase hlen
    have hc : SMOOTHING_BUFFER_SIZE ≤
        (getSmoothedValue s.shoulderSlopeBuffer r.shoulderSlope).1.length := by
      rw [getSmoothedValue_fst_length]
      simp only [SMOOTHING_BUFFER_SIZE]
      split <;> omega
    simp [analyzePosture, hr, hbase, hc]
  · intro hr hbase hlen
    have hc : ¬ SMOOTHING_BUFFER_SIZE ≤
        (getSmoothedValue s.shoulderSlopeBuffer r.shoulderSlope).1.length := by
      rw [getSmoothedValue_fst_length]
      simp only [SMOOTHING_BUFFER_SIZE]
      split <;> omega
    simp [analyzePosture, hr, hbase, hc]

/-- Witness for C4: on a 13-landmark frame of zeros analyzed in a state
with four buffered samples per feature and no baseline, the baseline is
captured; the captured record is the all-zero smoothed feature set. -/
theorem C4_baseline_captured_once_witness :
    (analyzePosture 50 (List.replicate 13 ⟨0, 0, 1⟩) 0 quietEnv
      { baseline := none, shoulderSlopeBuffer := [0, 0, 0, 0],
        neckAngleBuffer := [0, 0, 0, 0], faceSizeBuffer := [0, 0, 0, 0],
        headYawBuffer := [0, 0, 0, 0], spinalRatioBuffer := [0, 0, 0, 0],
        badPostureStart := none, lastNotificationTime := 0 }).map
      (fun p => p.1.baseline) =
      some (some
        { shoulderSlope := 0, neckAngle := 0, faceSize := 0, headYaw := 0,
          spinalRatio := 0 }) := by
  have hr : extractRaw (List.replicate 13 (⟨0, 0, 1⟩ : Landmark)) =
      some { shoulderSlope := 0, neckAngle := 0, headYaw := 0, faceSize := 0,
             spinalRatio := 0, confidence := 1 } := by
    norm_num [extractRaw, List.replicate]
  have h := (C4_baseline_captured_once 50 (List.replicate 13 ⟨0, 0, 1⟩) 0 quietEnv
    { baseline := none, shoulderSlopeBuffer := [0, 0, 0, 0],
      neckAngleBuffer := [0, 0, 0, 0], faceSizeBuffer := [0, 0, 0, 0],
      headYawBuffer := [0, 0, 0, 0], spinalRatioBuffer := [0, 0, 0, 0],
      badPostureStart := none, lastNotificationTime := 0 }
    { shoulderSlope := 0, neckAngle := 0, headYaw := 0, faceSize := 0,
      spinalRatio := 0, confidence := 1 }
    [] PostureStatus.good fallbackBaseline).1 hr rfl (by norm_num)
  rw [h]
  norm_num [getSmoothedValue, SMOOTHING_BUFFER_SIZE]

theorem hysteresisGate_start (raw : PostureStatus) (now : ℤ) (env : NotificationEnv)
    (start : Option ℤ) (last : ℤ) :
    (hysteresisGate raw now env start last).2.1 =
      if raw = PostureStatus.good then none else some (start.getD now) := by
  by_cases h : raw = PostureStatus.good
  · simp [h, hysteresisGate_good]
  · rw [hysteresisGate_bad h, if_neg h]
    split <;> rfl

theorem hysteresisGate_none_start (raw : PostureStatus) (now : ℤ) (env : NotificationEnv)
    (last : ℤ) :
    (hysteresisGate raw now env none last).1 = PostureStatus.good := by
  by_cases h : raw = PostureStatus.good
  · rw [h, hysteresisGate_good]
  · rw [hysteresisGate_bad h]
    simp [BAD_POSTURE_THRESHOLD_MS]

theorem hysteresisGate_fst_ne_good {raw : PostureStatus} {now : ℤ} {env : NotificationEnv}
    {start : Option ℤ} {last : ℤ}
    (h : (hysteresisGate raw now env start last).1 ≠ PostureStatus.good) :
    raw ≠ PostureStatus.good ∧
    ∃ t, start = some t ∧ BAD_POSTURE_THRESHOLD_MS ≤ now - t ∧
      (hysteresisGate raw now env start last).1 = raw := by
  by_cases hr : raw = PostureStatus.good
  · rw [hr, hysteresisGate_good] at h
    exact absurd rfl h
  · refine ⟨hr, ?_⟩
    cases start with
    | none => exact absurd (hysteresisGate_none_start raw now env last) h
    | some t =>
      rw [hysteresisGate_bad hr] at h ⊢
      simp only [Option.getD_some] at h ⊢
      by_cases hlt : now - t < BAD_POSTURE_THRESHOLD_MS
      · rw [if_pos hlt] at h
        exact absurd rfl h
      · rw [if_neg hlt]
        exact ⟨t, rfl, le_of_not_lt hlt, rfl⟩

theorem gateStateAfter_append :
    ∀ (xs ys : List (PostureStatus × ℤ)) (start : Option ℤ),
      gateStateAfter (xs ++ ys) start = gateStateAfter ys (gateStateAfter xs start) := by
  intro xs
  induction xs with
  | nil => intro ys start; rfl
  | cons f rest ih =>
    intro ys start
    obtain ⟨raw, now⟩ := f
    simp only [List.cons_append]
    rw [show gateStateAfter ((raw, now) :: (rest ++ ys)) start =
      gateStateAfter (rest ++ ys) (hysteresisGate raw now quietEnv start 0).2.1 from rfl]
    rw [ih]
    rfl

theorem runGate_append :
    ∀ (xs ys : List (PostureStatus × ℤ)) (start : Option ℤ),
      runGate (xs ++ ys) start = runGate xs start ++ runGate ys (gateStateAfter xs start) := by
  intro xs
  induction xs with
  | nil => intro ys start; rfl
  | cons f rest ih =>
    intro ys start
    obtain ⟨raw, now⟩ := f
    simp only [List.cons_append]
    rw [show runGate ((raw, now) :: (rest ++ ys)) start =
      (hysteresisGate raw now quietEnv start 0).1 ::
        runGate (rest ++ ys) (hysteresisGate raw now quietEnv start 0).2.1 from rfl]
    rw [ih]
    rfl

theorem gateStateAfter_some :
    ∀ (frames : List (PostureStatus × ℤ)) (start : Option ℤ) (t : ℤ),
      gateStateAfter frames start = some t →
      (∃ p1 f2 p2, frames = p1 ++ f2 :: p2 ∧ f2.1 ≠ PostureStatus.good ∧ f2.2 = t ∧
        ∀ f ∈ p2, f.1 ≠ PostureStatus.good) ∨
      (start = some t ∧ ∀ f ∈ frames, f.1 ≠ PostureStatus.good) := by
  intro frames
  induction frames with
  | nil =>
    intro start t h
    right
    exact ⟨h, by simp⟩
  | cons f rest ih =>
    intro start t h
    obtain ⟨raw, now⟩ := f
    rw [show gateStateAfter ((raw, now) :: rest) start =
      gateStateAfter rest (hysteresisGate raw now quietEnv start 0).2.1 from rfl] at h
    rcases ih _ t h with ⟨p1, f2, p2, hsplit, hf2, hft, hall⟩ | ⟨hs2, hall⟩
    · left
      exact ⟨(raw, now) :: p1, f2, p2, by rw [hsplit]; rfl, hf2, hft, hall⟩
    · rw [hysteresisGate_start] at hs2
      by_cases hr : raw = PostureStatus.good
      · rw [if_pos hr] at hs2
        exact absurd hs2 (by simp)
      · rw [if_neg hr] at hs2
        cases start with
        | none =>
          left
          refine ⟨[], (raw, now), rest, rfl, hr, ?_, hall⟩
          simpa using hs2
        | some t0 =>
          right
          have ht0 : t0 = t := by simpa using hs2
          refine ⟨by rw [ht0], fun g hg => ?_⟩
          rcases List.mem_cons.mp hg with hg | hg
          · rw [hg]
            exact hr
          · exact hall g hg

/-- C2: the hysteresis gate reports a non-`good` status at a frame only
when that frame and an immediately preceding unbroken run of raw
non-`good` frames cover at least `BAD_POSTURE_THRESHOLD_MS` (2000ms): a
frame below the dwell is forced to `good`, a frame at or past the dwell
reports the raw status and invokes the alert dispatcher, a raw-`good`
frame clears the recorded start, and a single bad frame immediately
followed by a good frame reports `good` on both frames. -/
theorem C2_hysteresis_dwell (pre rest : List (PostureStatus × ℤ)) (raw : PostureStatus)
    (now : ℤ) (env : NotificationEnv) (start : Option ℤ) (last t : ℤ) :
    (runGate (pre ++ (raw, now) :: rest) none =
      runGate pre none ++
        (hysteresisGate raw now quietEnv (gateStateAfter pre none) 0).1 ::
          runGate rest (gateStateAfter (pre ++ [(raw, now)]) none)) ∧
    (raw ≠ PostureStatus.good → start = some t → now - t < BAD_POSTURE_THRESHOLD_MS →
      (hysteresisGate raw now env start last).1 = PostureStatus.good) ∧
    (raw ≠ PostureStatus.good → start = some t → BAD_POSTURE_THRESHOLD_MS ≤ now - t →
      (hysteresisGate raw now env start last).1 = raw ∧
      (hysteresisGate raw now env start last).2.2 = (sendNotification env last now).2) ∧
    (raw = PostureStatus.good → (hysteresisGate raw now env start last).2.1 = none) ∧
    (start = none → (hysteresisGate raw now env start last).1 = PostureStatus.good) ∧
    (∀ t1 t2 : ℤ, runGate [(raw, t1), (PostureStatus.good, t2)] none =
      [PostureStatus.good, PostureStatus.good]) ∧
    ((hysteresisGate raw now quietEnv (gateStateAfter pre none) 0).1 ≠ PostureStatus.good →
      raw ≠ PostureStatus.good ∧
      (hysteresisGate raw now quietEnv (gateStateAfter pre none) 0).1 = raw ∧
      ∃ p1 f2 p2, pre = p1 ++ f2 :: p2 ∧ f2.1 ≠ PostureStatus.good ∧
        (∀ f ∈ p2, f.1 ≠ PostureStatus.good) ∧
        BAD_POSTURE_THRESHOLD_MS ≤ now - f2.2) := by
  refine ⟨?_, ?_, ?_, ?_, ?_, ?_, ?_⟩
  · rw [runGate_append, gateStateAfter_append]
    rfl
  · intro hr hs hlt
    subst hs
    rw [hysteresisGate_bad hr]
    simp only [Option.getD_some]
    rw [if_pos hlt]
  · intro hr hs hge
    subst hs
    rw [hysteresisGate_bad hr]
    simp only [Option.getD_some]
    rw [if_neg (not_lt.mpr hge)]
    exact ⟨rfl, rfl⟩
  · intro hr
    subst hr
    rw [hysteresisGate_good]
  · intro hs
    subst hs
    exact hysteresisGate_none_start raw now env last
  · intro t1 t2
    rw [show runGate [(raw, t1), (PostureStatus.good, t2)] none =
      (hysteresisGate raw t1 quietEnv none 0).1 ::
        (hysteresisGate PostureStatus.good t2 quietEnv
          (hysteresisGate raw t1 quietEnv none 0).2.1 0).1 :: [] from rfl]
    rw [hysteresisGate_none_start, hysteresisGate_good]
  · intro h
    obtain ⟨hr, u, hsu, hge, hfst⟩ := hysteresisGate_fst_ne_good h
    rcases gateStateAfter_some pre none u hsu with
      ⟨p1, f2, p2, hsplit, hf2, hft, hall⟩ | ⟨habs, -⟩
    · exact ⟨hr, hfst, p1, f2, p2, hsplit, hf2, hall, by rw [hft]; exact hge⟩
    · exact absurd habs (by simp)

/-- Witness for C2: a bad frame at time 0 with a recorded start at -2500
reports the raw status; a single bad frame followed by a good frame
reports `good` twice. -/
theorem C2_hysteresis_dwell_witness :
    (hysteresisGate PostureStatus.sitStraight 0 quietEnv (some (-2500)) 0).1 =
      PostureStatus.sitStraight ∧
    runGate [(PostureStatus.sitStraight, 0), (PostureStatus.good, 16)] none =
      [PostureStatus.good, PostureStatus.good] :=
  ⟨((C2_hysteresis_dwell [] [] PostureStatus.sitStraight 0 quietEnv (some (-2500)) 0
      (-2500)).2.2.1 (by simp) rfl
      (by norm_num [BAD_POSTURE_THRESHOLD_MS])).1,
    (C2_hysteresis_dwell [] [] PostureStatus.sitStraight 0 quietEnv none 0 0).2.2.2.2.2.1
      0 16⟩

theorem sendNotification_fire_iff (env : NotificationEnv) (last now : ℤ) :
    (sendNotification env last now).1 = true ↔
      (env.hasNotificationApi ∧ env.permissionGranted ∧ env.pageHidden ∧
        NOTIFICATION_COOLDOWN_MS < now - last) := by
  unfold sendNotification
  split_ifs with hc <;> simp [hc]

theorem sendNotification_snd_of_fire {env : NotificationEnv} {last now : ℤ}
    (h : (sendNotification env last now).1 = true) :
    (sendNotification env last now).2 = now := by
  unfold sendNotification at h ⊢
  split_ifs at h ⊢ with hc
  all_goals first
  | rfl
  | exact absurd h (by simp)

/-- C5 counterexample: with the Notification API present, permission
granted and the page hidden, a notification fired at time 6000 blocks a
qualifying condition at time 11000 — exactly 5000ms later — so two
qualifying bad conditions separated by exactly 5000ms produce one
notification, not two, refuting the claim's "at least 5000ms"
("5000ms or more") firing condition. -/
theorem C5_notification_cooldown_counterexample :
    (sendNotification ⟨true, true, true⟩ 0 6000).1 = true ∧
    (sendNotification ⟨true, true, true⟩ 0 6000).2 = 6000 ∧
    (11000 : ℤ) - 6000 = 5000 ∧
    (sendNotification ⟨true, true, true⟩ 6000 11000).1 = false := by
  refine ⟨by norm_num [sendNotification, NOTIFICATION_COOLDOWN_MS],
    by norm_num [sendNotification, NOTIFICATION_COOLDOWN_MS], by norm_num,
    by norm_num [sendNotification, NOTIFICATION_COOLDOWN_MS]⟩

/-- C5 (amended): the dispatcher fires iff capability, permission, hidden
page and strictly more than 5000ms since the last fired notification all
hold, it updates the last-notification time to the current time on firing
and leaves it unchanged otherwise; two qualifying bad conditions separated
by 5000ms or less produce one notification, and separated by strictly more
than 5000ms produce two. -/
theorem C5_notification_cooldown (env : NotificationEnv) (last now t1 t2 : ℤ) :
    ((sendNotification env last now).1 = true ↔
      (env.hasNotificationApi ∧ env.permissionGranted ∧ env.pageHidden ∧
        NOTIFICATION_COOLDOWN_MS < now - last)) ∧
    ((sendNotification env last now).1 = true →
      (sendNotification env last now).2 = now) ∧
    ((sendNotification env last now).1 = false →
      (sendNotification env last now).2 = last) ∧
    ((sendNotification env last t1).1 = true → t2 - t1 ≤ NOTIFICATION_COOLDOWN_MS →
      (sendNotification env (sendNotification env last t1).2 t2).1 = false) ∧
    ((sendNotification env last t1).1 = true → NOTIFICATION_COOLDOWN_MS < t2 - t1 →
      (sendNotification env (sendNotification env last t1).2 t2).1 = true) := by
  refine ⟨sendNotification_fire_iff env last now,
    fun h => sendNotification_snd_of_fire h, ?_, ?_, ?_⟩
  · intro h
    unfold sendNotification at h ⊢
    split_ifs at h ⊢ with hc
    all_goals simp_all
  · intro h1 hle
    rw [sendNotification_snd_of_fire h1]
    have hnot : ¬ (env.hasNotificationApi ∧ env.permissionGranted ∧ env.pageHidden ∧
        NOTIFICATION_COOLDOWN_MS < t2 - t1) := by
      rintro ⟨-, -, -, hlt⟩
      omega
    rcases hb : (sendNotification env t1 t2).1 with _ | _
    · rfl
    · exact absurd ((sendNotification_fire_iff env t1 t2).mp hb) hnot
  · intro h1 hlt
    rw [sendNotification_snd_of_fire h1]
    obtain ⟨ha, hp, hh, -⟩ := (sendNotification_fire_iff env last t1).mp h1
    exact (sendNotification_fire_iff env t1 t2).mpr ⟨ha, hp, hh, hlt⟩

/-- Witness for C5 (amended): a notification fired at 6000 is followed by
a second one at 12000, strictly more than 5000ms later. -/
theorem C5_notification_cooldown_witness :
    (sendNotification ⟨true, true, true⟩
      (sendNotification ⟨true, true, true⟩ 0 6000).2 12000).1 = true :=
  (C5_notification_cooldown ⟨true, true, true⟩ 0 0 6000 12000).2.2.2.2
    (by norm_num [sendNotification, NOTIFICATION_COOLDOWN_MS])
    (by norm_num [NOTIFICATION_COOLDOWN_MS])

theorem extractRaw_none_iff (l : List Landmark) :
    extractRaw l = none ↔ l.length < 13 := by
  constructor
  · intro h
    by_contra hge
    push_neg at hge
    have e11 : l[11]? = some l[11] := List.getElem?_eq_getElem (by omega)
    have e12 : l[12]? = some l[12] := List.getElem?_eq_getElem (by omega)
    have e7 : l[7]? = some l[7] := List.getElem?_eq_getElem (by omega)
    have e8 : l[8]? = some l[8] := List.getElem?_eq_getElem (by omega)
    have e0 : l[0]? = some l[0] := List.getElem?_eq_getElem (by omega)
    simp [extractRaw, e11, e12, e7, e8, e0] at h
  · intro hlt
    have e12 : l[12]? = none := List.getElem?_eq_none (by omega)
    cases e11 : l[11]? with
    | none => simp [extractRaw, e11]
    | some ls => simp [extractRaw, e11, e12]

/-- C6 counterexample: a frame with a single landmark (missing the
required indices) analyzed after a good frame leaves the reported status
at `good` — not `no-person` as the claim says — and a 13-landmark frame
whose ears coincide (degenerate `faceSize = 0`) is not skipped: it pushes
the unguarded ratio into the spinal-ratio buffer, so the smoothing buffers
do not stay unchanged. -/
theorem C6_invalid_frame_counterexample :
    (detectPose 50 (some [⟨0, 0, 1⟩]) 0 quietEnv
      { baseline := none, shoulderSlopeBuffer := [], neckAngleBuffer := [],
        faceSizeBuffer := [], headYawBuffer := [], spinalRatioBuffer := [],
        badPostureStart := none, lastNotificationTime := 0 }
      PostureStatus.good).2 = PostureStatus.good ∧
    PostureStatus.good ≠ PostureStatus.noPerson ∧
    (detectPose 50 (some (List.replicate 13 ⟨0, 0, 1⟩)) 0 quietEnv
      { baseline := none, shoulderSlopeBuffer := [], neckAngleBuffer := [],
        faceSizeBuffer := [], headYawBuffer := [], spinalRatioBuffer := [],
        badPostureStart := none, lastNotificationTime := 0 }
      PostureStatus.good).1.spinalRatioBuffer = [0] := by
  refine ⟨rfl, by simp, ?_⟩
  have hr : extractRaw (List.replicate 13 (⟨0, 0, 1⟩ : Landmark)) =
      some { shoulderSlope := 0, neckAngle := 0, headYaw := 0, faceSize := 0,
             spinalRatio := 0, confidence := 1 } := by
    norm_num [extractRaw, List.replicate]
  simp only [detectPose, analyzePosture, hr]
  norm_num [getSmoothedValue, SMOOTHING_BUFFER_SIZE]

/-- C6 (amended): an invalid frame never crashes the frame loop.  A frame
missing the required landmark indices (fewer than 13 entries) aborts the
analysis before any state mutation; the loop catches the thrown error and
leaves the smoothing buffers, the baseline, the hysteresis timestamp and
also the reported status unchanged — the previous status persists rather
than `no-person`.  `no-person` is reported (with untouched state) only on
the explicit no-landmarks signal.  A degenerate `faceSize` of zero does
not abort the pass: the analysis completes and pushes the unguarded ratio
into the spinal-ratio buffer. -/
theorem C6_invalid_frame_behavior (sens : ℚ) (l : List Landmark) (now : ℤ)
    (env : NotificationEnv) (s : SessionState) (prev : PostureStatus) :
    (l.length < 13 → detectPose sens (some l) now env s prev = (s, prev)) ∧
    detectPose sens none now env s prev = (s, PostureStatus.noPerson) ∧
    (13 ≤ l.length → ∃ r, extractRaw l = some r ∧
      (analyzePosture sens l now env s).map (fun p => p.1.spinalRatioBuffer) =
        some (getSmoothedValue s.spinalRatioBuffer r.spinalRatio).1) := by
  refine ⟨?_, rfl, ?_⟩
  · intro hlt
    have h := (extractRaw_none_iff l).mpr hlt
    simp [detectPose, analyzePosture, h]
  · intro hge
    cases hr : extractRaw l with
    | none =>
      have := (extractRaw_none_iff l).mp hr
      omega
    | some r =>
      refine ⟨r, rfl, ?_⟩
      simp [analyzePosture, hr]

/-- Witness for C6 (amended): the one-landmark frame leaves the empty
state and the previous `good` status untouched. -/
theorem C6_invalid_frame_behavior_witness :
    detectPose 50 (some [⟨0, 0, 1⟩]) 0 quietEnv
      { baseline := none, shoulderSlopeBuffer := [], neckAngleBuffer := [],
        faceSizeBuffer := [], headYawBuffer := [], spinalRatioBuffer := [],
        badPostureStart := none, lastNotificationTime := 0 }
      PostureStatus.initializing =
      ({ baseline := none, shoulderSlopeBuffer := [], neckAngleBuffer := [],
         faceSizeBuffer := [], headYawBuffer := [], spinalRatioBuffer := [],
         badPostureStart := none, lastNotificationTime := 0 },
       PostureStatus.initializing) :=
  (C6_invalid_frame_behavior 50 [⟨0, 0, 1⟩] 0 quietEnv
    { baseline := none, shoulderSlopeBuffer := [], neckAngleBuffer := [],
      faceSizeBuffer := [], headYawBuffer := [], spinalRatioBuffer := [],
      badPostureStart := none, lastNotificationTime := 0 }
    PostureStatus.initializing).1 (by norm_num)

theorem distanceThreshold_self_lt_iff {s f : ℚ} (h0 : 0 ≤ s) (h100 : s ≤ 100)
    (hf : 0 ≤ f) :
    distanceThreshold s f < f ↔ 90 < s ∧ 0 < f := by
  have hm := sensitivityMultiplier_pos h0 h100
  unfold distanceThreshold
  rw [div_lt_iff hm]
  constructor
  · intro hlt
    rcases lt_or_eq_of_le hf with hfpos | hfeq
    · refine ⟨sensitivityMultiplier_lt_iff.mp ?_, hfpos⟩
      exact (mul_lt_mul_left hfpos).mp hlt
    · rw [← hfeq] at hlt
      simp at hlt
  · rintro ⟨hs90, hfpos⟩
    have h14 := sensitivityMultiplier_lt_iff.mpr hs90
    exact (mul_lt_mul_left hfpos).mpr h14

theorem classifyRaw_self {s sh n hy f sp : ℚ} (h0 : 0 ≤ s) (h100 : s ≤ 100) (hf : 0 ≤ f) :
    classifyRaw s ⟨sh, n, f, hy, sp⟩ sh n hy f sp ≠ PostureStatus.sitStraight ∧
    (classifyRaw s ⟨sh, n, f, hy, sp⟩ sh n hy f sp = PostureStatus.moveBack ↔
      90 < s ∧ 0 < f) := by
  have h2 : ¬ sh + shoulderThreshold s < sh := by
    have := shoulderThreshold_pos h0 h100
    linarith
  have h3 : ¬ n + neckThreshold s < n := by
    have := neckThreshold_pos h0 h100
    linarith
  have h4 : ¬ hy + headYawThreshold s < hy := by
    have := headYawThreshold_pos h0 h100
    linarith
  have h5 : ¬ sp < sp - spinalRatioThreshold s := by
    have := spinalRatioThreshold_pos h0 h100
    linarith
  by_cases hc : distanceThreshold s f < f
  · constructor
    · simp [classifyRaw, hc]
    · simp only [classifyRaw]
      rw [if_pos hc]
      simp only [true_iff]
      exact (distanceThreshold_self_lt_iff h0 h100 hf).mp hc
  · constructor
    · simp [classifyRaw, hc, h2, h3, h4, h5]
    · simp only [classifyRaw]
      rw [if_neg hc, if_neg h2, if_neg h3, if_neg h4, if_neg h5]
      constructor
      · intro h
        exact absurd h (by simp)
      · intro hrhs
        exact absurd ((distanceThreshold_self_lt_iff h0 h100 hf).mpr hrhs) hc

theorem extractRaw_eq (l : List Landmark) (h11 : 11 < l.length) (h12 : 12 < l.length)
    (h7 : 7 < l.length) (h8 : 8 < l.length) (h0 : 0 < l.length) :
    extractRaw l = some
      { shoulderSlope := |(l.get ⟨11, h11⟩).y - (l.get ⟨12, h12⟩).y|
        neckAngle := |(l.get ⟨0, h0⟩).x - ((l.get ⟨11, h11⟩).x + (l.get ⟨12, h12⟩).x) / 2|
        headYaw := |(l.get ⟨0, h0⟩).x - ((l.get ⟨7, h7⟩).x + (l.get ⟨8, h8⟩).x) / 2|
        faceSize := |(l.get ⟨7, h7⟩).x - (l.get ⟨8, h8⟩).x|
        spinalRatio := |((l.get ⟨11, h11⟩).y + (l.get ⟨12, h12⟩).y) / 2 - (l.get ⟨0, h0⟩).y| /
          |(l.get ⟨7, h7⟩).x - (l.get ⟨8, h8⟩).x|
        confidence := ((l.get ⟨11, h11⟩).visibility + (l.get ⟨12, h12⟩).visibility +
          (l.get ⟨0, h0⟩).visibility) / 3 } := by
  have e11 : l[11]? = some (l.get ⟨11, h11⟩) := by
    simp [List.getElem?_eq_getElem h11, List.get_eq_getElem]
  have e12 : l[12]? = some (l.get ⟨12, h12⟩) := by
    simp [List.getElem?_eq_getElem h12, List.get_eq_getElem]
  have e7 : l[7]? = some (l.get ⟨7, h7⟩) := by
    simp [List.getElem?_eq_getElem h7, List.get_eq_getElem]
  have e8 : l[8]? = some (l.get ⟨8, h8⟩) := by
    simp [List.getElem?_eq_getElem h8, List.get_eq_getElem]
  have e0 : l[0]? = some (l.get ⟨0, h0⟩) := by
    simp [List.getElem?_eq_getElem h0, List.get_eq_getElem]
  simp [extractRaw, e11, e12, e7, e8, e0]

theorem extractRaw_faceSize_nonneg {l : List Landmark} {r : RawFeatures}
    (h : extractRaw l = some r) : 0 ≤ r.faceSize := by
  rcases lt_or_le l.length 13 with hlt | hge
  · rw [(extractRaw_none_iff l).mpr hlt] at h
    exact absurd h (by simp)
  · rw [extractRaw_eq l (by omega) (by omega) (by omega) (by omega) (by omega)] at h
    rw [← Option.some_inj.mp h]
    exact abs_nonneg _

theorem getSmoothedValue_fst_subset (b : List ℚ) (v : ℚ) :
    (getSmoothedValue b v).1 ⊆ b ++ [v] := by
  simp only [getSmoothedValue]
  split
  · exact (List.tail_sublist _).subset
  · exact List.Subset.refl _

theorem getSmoothedValue_snd_nonneg {b : List ℚ} {v : ℚ}
    (hb : ∀ x ∈ b, (0 : ℚ) ≤ x) (hv : 0 ≤ v) :
    0 ≤ (getSmoothedValue b v).2 := by
  rw [getSmoothedValue_snd]
  apply div_nonneg
  · apply List.sum_nonneg
    intro x hx
    rcases List.mem_append.mp (getSmoothedValue_fst_subset b v hx) with hmem | hmem
    · exact hb x hmem
    · rw [List.mem_singleton.mp hmem]
      exact hv
  · exact Nat.cast_nonneg _

theorem hysteresisGate_fst_cases (raw : PostureStatus) (now : ℤ) (env : NotificationEnv)
    (start : Option ℤ) (last : ℤ) :
    (hysteresisGate raw now env start last).1 = PostureStatus.good ∨
    (hysteresisGate raw now env start last).1 = raw := by
  by_cases h : raw = PostureStatus.good
  · rw [h, hysteresisGate_good]
    exact Or.inl rfl
  · rw [hysteresisGate_bad h]
    split
    · exact Or.inl rfl
    · exact Or.inr rfl

/-- C10: on the very frame where the baseline is captured the raw status
can never be `sit-straight` for any sensitivity in `[0,100]`, because the
baseline equals the current smoothed features and each posture check
compares a feature strictly against itself shifted by a strictly positive
threshold; `move-back` is the only non-`good` possibility, and it occurs
exactly when the sensitivity exceeds 90 (multiplier above 1.4) and the
captured face size is positive.  Consequently the reported status of the
capturing analysis pass is never `sit-straight` either. -/
theorem C10_capture_frame_never_sit_straight (s sh n hy f sp : ℚ)
    (sens : ℚ) (l : List Landmark) (now : ℤ) (env : NotificationEnv)
    (st : SessionState) (r : RawFeatures)
    (h0 : 0 ≤ s) (h100 : s ≤ 100) (hf : 0 ≤ f) :
    (classifyRaw s ⟨sh, n, f, hy, sp⟩ sh n hy f sp ≠ PostureStatus.sitStraight) ∧
    (classifyRaw s ⟨sh, n, f, hy, sp⟩ sh n hy f sp = PostureStatus.moveBack ↔
      90 < s ∧ 0 < f) ∧
    (0 ≤ sens → sens ≤ 100 → (∀ x ∈ st.faceSizeBuffer, (0 : ℚ) ≤ x) →
      extractRaw l = some r → st.baseline = none → 4 ≤ st.shoulderSlopeBuffer.length →
      (analyzePosture sens l now env st).map (fun p => p.2.status) ≠
        some PostureStatus.sitStraight) := by
  refine ⟨(classifyRaw_self h0 h100 hf).1, (classifyRaw_self h0 h100 hf).2, ?_⟩
  intro hs0 hs100 hbuf hr hbase hlen
  have hc : SMOOTHING_BUFFER_SIZE ≤
      (getSmoothedValue st.shoulderSlopeBuffer r.shoulderSlope).1.length := by
    rw [getSmoothedValue_fst_length]
    simp only [SMOOTHING_BUFFER_SIZE]
    split <;> omega
  have hfsm : 0 ≤ (getSmoothedValue st.faceSizeBuffer r.faceSize).2 :=
    getSmoothedValue_snd_nonneg hbuf (extractRaw_faceSize_nonneg hr)
  have hraw := (@classifyRaw_self sens
    (getSmoothedValue st.shoulderSlopeBuffer r.shoulderSlope).2
    (getSmoothedValue st.neckAngleBuffer r.neckAngle).2
    (getSmoothedValue st.headYawBuffer r.headYaw).2
    (getSmoothedValue st.faceSizeBuffer r.faceSize).2
    (getSmoothedValue st.spinalRatioBuffer r.spinalRatio).2
    hs0 hs100 hfsm).1
  simp only [analyzePosture, hr, hbase]
  simp only [Option.isNone_none, true_and, hc, if_pos]
  intro habs
  have habs2 : (hysteresisGate
      (classifyRaw sens
        { shoulderSlope := (getSmoothedValue st.shoulderSlopeBuffer r.shoulderSlope).2,
          neckAngle := (getSmoothedValue st.neckAngleBuffer r.neckAngle).2,
          faceSize := (getSmoothedValue st.faceSizeBuffer r.faceSize).2,
          headYaw := (getSmoothedValue st.headYawBuffer r.headYaw).2,
          spinalRatio := (getSmoothedValue st.spinalRatioBuffer r.spinalRatio).2 }
        (getSmoothedValue st.shoulderSlopeBuffer r.shoulderSlope).2
        (getSmoothedValue st.neckAngleBuffer r.neckAngle).2
        (getSmoothedValue st.headYawBuffer r.headYaw).2
        (getSmoothedValue st.faceSizeBuffer r.faceSize).2
        (getSmoothedValue st.spinalRatioBuffer r.spinalRatio).2)
      now env st.badPostureStart st.lastNotificationTime).1 = PostureStatus.sitStraight := by
    simpa using habs
  rcases hysteresisGate_fst_cases
      (classifyRaw sens
        { shoulderSlope := (getSmoothedValue st.shoulderSlopeBuffer r.shoulderSlope).2,
          neckAngle := (getSmoothedValue st.neckAngleBuffer r.neckAngle).2,
          faceSize := (getSmoothedValue st.faceSizeBuffer r.faceSize).2,
          headYaw := (getSmoothedValue st.headYawBuffer r.headYaw).2,
          spinalRatio := (getSmoothedValue st.spinalRatioBuffer r.spinalRatio).2 }
        (getSmoothedValue st.shoulderSlopeBuffer r.shoulderSlope).2
        (getSmoothedValue st.neckAngleBuffer r.neckAngle).2
        (getSmoothedValue st.headYawBuffer r.headYaw).2
        (getSmoothedValue st.faceSizeBuffer r.faceSize).2
        (getSmoothedValue st.spinalRatioBuffer r.spinalRatio).2)
      now env st.badPostureStart st.lastNotificationTime with hcase | hcase
  · rw [habs2] at hcase
    exact absurd hcase (by simp)
  · rw [habs2] at hcase
    exact hraw hcase.symm

/-- Witness for C10: at sensitivity 95 with self-baseline face size 1 the
raw status is `move-back` (not `sit-straight`); at sensitivity 50 it is
not `sit-straight` either. -/
theorem C10_capture_frame_never_sit_straight_witness :
    classifyRaw 95 ⟨0, 0, 1, 0, 0⟩ 0 0 0 1 0 ≠ PostureStatus.sitStraight ∧
    classifyRaw 95 ⟨0, 0, 1, 0, 0⟩ 0 0 0 1 0 = PostureStatus.moveBack := by
  have h := C10_capture_frame_never_sit_straight 95 0 0 0 1 0 50
    [] 0 quietEnv (resetBaseline
      { baseline := none, shoulderSlopeBuffer := [], neckAngleBuffer := [],
        faceSizeBuffer := [], headYawBuffer := [], spinalRatioBuffer := [],
        badPostureStart := none, lastNotificationTime := 0 })
    { shoulderSlope := 0, neckAngle := 0, headYaw := 0, faceSize := 0,
      spinalRatio := 0, confidence := 1 }
    (by norm_num) (by norm_num) (by norm_num)
  exact ⟨h.1, h.2.1.mpr ⟨by norm_num, by norm_num⟩⟩

end PostureGuard
